import Mathlib

/-!
Verification of the loyalty redemption workflow of this repository.

Monetary amounts (JS numbers holding decimal currency values, and numeric
strings passed through `parseFloat`/`toFixed(2)`) are modelled as rationals
(`ℚ`).  External calls (HTTP `fetch`, the database client, the commerce
platform GraphQL client) are modelled by explicit outcome values supplied in
an environment record: the embedded functions are pure functions of the
request and of those outcomes, and each embedding additionally records, in
its trace, which provider calls were performed.
-/

/-- Outcome of an HTTP `fetch` as observed by the calling code: the fetch
threw, completed with a non-2xx status (`!response.ok`), or completed ok with
a parsed JSON payload. -/
inductive FetchOutcome (α : Type) where
  | threw
  | notOk
  | ok (payload : α)
deriving DecidableEq

/-- Outcome of a database or GraphQL client call: it threw, or returned a
value. -/
inductive CallOutcome (α : Type) where
  | threw
  | ok (val : α)
deriving DecidableEq

/-- JS truthiness of a `string | undefined | null` value: absent values and
the empty string are falsy. -/
def optStrTruthy : Option String → Bool
  | none => false
  | some s => s != ""

/-- JS `x || d` on a number (the model has no NaN): zero falls back to `d`. -/
def numOr (x d : ℚ) : ℚ := if x = 0 then d else x

/-- The source's `authHeader.startsWith("Bearer ")` check, computed on the
underlying character list. -/
def strStartsWith (s p : String) : Bool :=
  s.data.take p.data.length == p.data

/-! ## Checkout/automatic path: `cart_lines_discounts_generate_run.ts` -/

/-- Payload of the proxy points lookup (`GetPointsProxyResponse` in the
source).  `customerMobileNumber = ""` models a missing/empty number (falsy in
JS); `error = some ""` is likewise falsy in the source's truthiness test. -/
structure GetPointsProxyResponse where
  balance : ℚ
  scheme_message : String
  otpFlag : String
  customerMobileNumber : String
  error : Option String
deriving DecidableEq

/-- Payload of the proxy redeem call (`RedeemProxyResponse` in the source). -/
structure RedeemProxyResponse where
  discount_value_rupees : ℚ
  error : Option String
deriving DecidableEq

/-- A discount metafield carrying the proxy base URL; `value` may be null. -/
structure Metafield where
  value : Option String
deriving DecidableEq

/-- `input.cart.cost.subtotalAmount`: the numeric value of the amount string
together with its currency code. -/
structure SubtotalAmount where
  amount : ℚ
  currencyCode : String
deriving DecidableEq

/-- The parts of `CartInput` the function reads: the buyer's customer id (if
logged in), the proxy-URL metafield (if configured) and the cart subtotal. -/
structure CartInput where
  customerId : Option String
  metafield : Option Metafield
  subtotalAmount : SubtotalAmount
deriving DecidableEq

/-- Environment of one checkout evaluation: the observable outcomes of the
two proxy fetches the function can make. -/
structure CheckoutEnv where
  pointsFetch : FetchOutcome GetPointsProxyResponse
  redeemFetch : FetchOutcome RedeemProxyResponse
deriving DecidableEq

/-- `value.fixedAmount` of an emitted order discount candidate. -/
structure FixedAmount where
  amount : ℚ
  appliesToEachLineItem : Bool
deriving DecidableEq

/-- One discount candidate: its fixed amount and whether its target is the
order subtotal (with no excluded cart lines).  The human-readable message
string is elided. -/
structure OrderDiscountCandidate where
  fixedAmount : FixedAmount
  targetsOrderSubtotal : Bool
deriving DecidableEq

/-- One `orderDiscountsAdd` operation: its candidates and whether the
selection strategy is `First`. -/
structure OrderDiscountsAddOperation where
  candidates : List OrderDiscountCandidate
  selectionStrategyFirst : Bool
deriving DecidableEq

/-- Result of one checkout evaluation, instrumented with whether the
point-debiting redeem call was performed. -/
structure CheckoutRunTrace where
  operations : List OrderDiscountsAddOperation
  redeemCalled : Bool
deriving DecidableEq

/-- The empty checkout result (`return { operations: [] }`) before the
redeem fetch was attempted. -/
def checkoutNoOp : CheckoutRunTrace := { operations := [], redeemCalled := false }

/-- The empty checkout result once the redeem fetch has been attempted. -/
def checkoutNoOpAfterRedeem : CheckoutRunTrace :=
  { operations := [], redeemCalled := true }

/-- Step 2 of `cartLinesDiscountsGenerateRun`: the redeem proxy call, the
`Math.min` cap and the final emission, as written from line 99 of the
source.  `cartSubtotal` is the parsed cart subtotal. -/
def checkoutRedeemPhase (cartSubtotal : ℚ)
    (redeemFetch : FetchOutcome RedeemProxyResponse) : CheckoutRunTrace :=
  match redeemFetch with
  | .threw => checkoutNoOpAfterRedeem
  | .notOk => checkoutNoOpAfterRedeem
  | .ok redeemData =>
    if optStrTruthy redeemData.error then checkoutNoOpAfterRedeem
    else
      let discountValueRupees := numOr redeemData.discount_value_rupees 0
      let finalDiscountAmount := min discountValueRupees cartSubtotal
      if 0 < finalDiscountAmount then
        { operations :=
            [{ candidates :=
                [{ fixedAmount :=
                    { amount := finalDiscountAmount,
                      appliesToEachLineItem := false },
                   targetsOrderSubtotal := true }],
               selectionStrategyFirst := true }],
           redeemCalled := true }
      else checkoutNoOpAfterRedeem

/-- Step 1 of `cartLinesDiscountsGenerateRun`: the points proxy call and its
guards (error flag, mobile number, positive balance, OTP gating), as written
from line 51 of the source. -/
def checkoutPointsPhase (input : CartInput) (env : CheckoutEnv) :
    CheckoutRunTrace :=
  match env.pointsFetch with
  | .threw => checkoutNoOp
  | .notOk => checkoutNoOp
  | .ok pointsData =>
    if optStrTruthy pointsData.error then checkoutNoOp
    else
      let availablePoints := numOr pointsData.balance 0
      let customerMobileNumber := pointsData.customerMobileNumber
      let otpRequired := pointsData.otpFlag == "y"
      if customerMobileNumber = "" ∨ availablePoints ≤ 0 then checkoutNoOp
      else if otpRequired then checkoutNoOp
      else checkoutRedeemPhase input.subtotalAmount.amount env.redeemFetch

/-- Shallow embedding of `cartLinesDiscountsGenerateRun`
(src/extensions/loyalty-disc/src/cart_lines_discounts_generate_run.ts).
The guards and early returns of the source are rendered in order, staged
into `checkoutPointsPhase` and `checkoutRedeemPhase`; the `redeemCalled`
flag records that control reached the second proxy fetch. -/
def cartLinesDiscountsGenerateRun (input : CartInput) (env : CheckoutEnv) :
    CheckoutRunTrace :=
  match input.customerId with
  | none => checkoutNoOp
  | some _ =>
    match input.metafield with
    | none => checkoutNoOp
    | some mf =>
      if optStrTruthy mf.value then checkoutPointsPhase input env
      else checkoutNoOp

/-! ## Interactive path: `api.loyalty.redeem-points.ts` (action) -/

/-- The fields of the shop's offline session row the routes select
(`billFreeAuthToken`, `isBillFreeConfigured`, `accessToken`, `shop`).
The verify-otp route selects `fieldMappings` instead of `accessToken`; it
reads only the first two fields, so the record is shared. -/
structure ShopSessionRecord where
  billFreeAuthToken : Option String
  isBillFreeConfigured : Bool
  accessToken : Option String
  shop : String
deriving DecidableEq

/-- BillFree's redeem payload (`BillfreeRedeemResponse` in the source). -/
structure BillfreeRedeemResponse where
  error : Bool
  response : String
  discount_value_rupees : ℚ
  maxRedeemablePts : ℚ
  maxRedeemableAmt : ℚ
  net_payable : ℚ
  otpFlag : String
  scheme_message : String
deriving DecidableEq

/-- BillFree's OTP-verification payload: the route reads only its `error`
flag and `response` text. -/
structure BillfreeVerifyOtpResponse where
  error : Bool
  response : String
deriving DecidableEq

/-- The parsed body and headers of a redeem-points request.  `customer_id =
""` models a missing/empty id (falsy); `bill_amt` is the numeric value of
the submitted bill-amount string, `none` when the field is missing or empty
(a present nonempty string is modelled as truthy). -/
structure RedeemRequestInput where
  method : String
  authHeader : Option String
  customer_id : String
  otp_code : Option String
  bill_amt : Option ℚ
deriving DecidableEq

/-- Environment of one redeem-points request: outcomes of the session-token
decode, the offline-session database lookup, the customer-phone GraphQL
query (`customer?.phone`), the two BillFree fetches, the discount-creation
mutation (its `userErrors` messages), and the clock value used to mint the
discount code. -/
structure RedeemEnv where
  tokenDecode : CallOutcome String
  dbLookup : CallOutcome (Option ShopSessionRecord)
  phoneLookup : CallOutcome (Option String)
  otpFetch : FetchOutcome BillfreeVerifyOtpResponse
  redeemFetch : FetchOutcome BillfreeRedeemResponse
  createCall : CallOutcome (List String)
  now : Nat
deriving DecidableEq

/-- The `DiscountCodeAppInput` variables of the `discountCodeAppCreate`
mutation, as constructed by the route (title, start and end timestamps
elided). -/
structure DiscountCodeAppInput where
  code : String
  usageLimit : Nat
  appliesOncePerCustomer : Bool
  customersAdded : List String
  amount : ℚ
deriving DecidableEq

/-- Observable response of the redeem-points route.  Exception messages
interpolated into the catch-all 500 body are elided. -/
inductive RouteResponse where
  | preflight
  | errorResp (status : Nat) (msg : String)
  | success (discountCode : String) (discountAmount pointsRedeemed : ℚ)
deriving DecidableEq

/-- Trace of one redeem-points request: the response, whether the BillFree
OTP-verification endpoint was called, whether it reported success, whether
the point-debiting redeem call was made, and the discount-creation request
variables if the mutation was attempted. -/
structure RedeemTrace where
  response : RouteResponse
  otpVerifyCalled : Bool
  otpVerified : Bool
  redeemCalled : Bool
  discountCreateRequested : Option DiscountCodeAppInput
deriving DecidableEq

/-- The catch-all 500 response of the route's `try` block. -/
def redeemCaught (otpCalled otpOk redeemed : Bool)
    (req : Option DiscountCodeAppInput) : RedeemTrace :=
  { response := .errorResp 500 "Redemption failed: exception.",
    otpVerifyCalled := otpCalled, otpVerified := otpOk,
    redeemCalled := redeemed, discountCreateRequested := req }

/-- An early error return of the route, before any BillFree call. -/
def redeemEarly (status : Nat) (msg : String) : RedeemTrace :=
  { response := .errorResp status msg, otpVerifyCalled := false,
    otpVerified := false, redeemCalled := false,
    discountCreateRequested := none }

/-- The `DiscountCodeAppInput` variables the route constructs for the
`discountCodeAppCreate` mutation: a clock-minted code, usage limit 1,
once-per-customer, a customer selection containing exactly the requesting
customer, and the provider amount. -/
def mkDiscountCodeAppInput (req : RedeemRequestInput) (env : RedeemEnv)
    (redeemData : BillfreeRedeemResponse) : DiscountCodeAppInput :=
  { code := "BILLFREE" ++ toString env.now, usageLimit := 1,
    appliesOncePerCustomer := true, customersAdded := [req.customer_id],
    amount := redeemData.maxRedeemableAmt }

/-- The redeem-and-create tail of the route (from line 130 of the source):
the BillFree redeem fetch, the `maxRedeemableAmt` truthiness guard, and the
`discountCodeAppCreate` mutation.  `otpCalled`/`otpOk` record how the OTP
stage completed. -/
def redeemCreatePhase (req : RedeemRequestInput) (env : RedeemEnv)
    (otpCalled otpOk : Bool) : RedeemTrace :=
  match env.redeemFetch with
  | .threw => redeemCaught otpCalled otpOk true none
  | .notOk =>
    { response := .errorResp 500 "Redemption failed.",
      otpVerifyCalled := otpCalled, otpVerified := otpOk,
      redeemCalled := true, discountCreateRequested := none }
  | .ok redeemData =>
    if redeemData.error = true ∨ redeemData.maxRedeemableAmt = 0 then
      { response := .errorResp 400
          (if redeemData.response == "" then "No discount available."
           else redeemData.response),
        otpVerifyCalled := otpCalled, otpVerified := otpOk,
        redeemCalled := true, discountCreateRequested := none }
    else
      match env.createCall with
      | .threw =>
        redeemCaught otpCalled otpOk true
          (some (mkDiscountCodeAppInput req env redeemData))
      | .ok userErrors =>
        if userErrors.length > 0 then
          { response := .errorResp 500 "Failed to create discount code.",
            otpVerifyCalled := otpCalled, otpVerified := otpOk,
            redeemCalled := true,
            discountCreateRequested :=
              some (mkDiscountCodeAppInput req env redeemData) }
        else
          { response := .success ("BILLFREE" ++ toString env.now)
              redeemData.maxRedeemableAmt redeemData.maxRedeemablePts,
            otpVerifyCalled := otpCalled, otpVerified := otpOk,
            redeemCalled := true,
            discountCreateRequested :=
              some (mkDiscountCodeAppInput req env redeemData) }

/-- Shallow embedding of the redeem-points action
(src/app/routes/api.loyalty.redeem-points.ts).  Guards are rendered in
source order: method, bearer header, session-token decode, required body
fields, shop configuration, customer phone, then — only when an `otp_code`
was submitted — the BillFree OTP verification, and finally
`redeemCreatePhase`. -/
def redeemPointsAction (req : RedeemRequestInput) (env : RedeemEnv) :
    RedeemTrace :=
  if req.method == "OPTIONS" then
    { response := .preflight, otpVerifyCalled := false, otpVerified := false,
      redeemCalled := false, discountCreateRequested := none }
  else if req.method != "POST" then
    redeemEarly 405 "Method Not Allowed"
  else
    match req.authHeader with
    | none => redeemEarly 401 "Missing or invalid authorization token."
    | some h =>
      if ¬ strStartsWith h "Bearer " then
        redeemEarly 401 "Missing or invalid authorization token."
      else
        match env.tokenDecode with
        | .threw => redeemEarly 401 "Invalid session token."
        | .ok _shopDomain =>
          if req.customer_id = "" ∨ req.bill_amt = none then
            redeemEarly 400 "Missing required parameters."
          else
            match env.dbLookup with
            | .threw => redeemCaught false false false none
            | .ok sessionOpt =>
              match sessionOpt with
              | none =>
                redeemEarly 400 "BillFree not configured for this shop."
              | some s =>
                if s.isBillFreeConfigured = false ∨
                    optStrTruthy s.billFreeAuthToken = false ∨
                    optStrTruthy s.accessToken = false then
                  redeemEarly 400 "BillFree not configured for this shop."
                else
                  match env.phoneLookup with
                  | .threw => redeemCaught false false false none
                  | .ok phoneOpt =>
                    if optStrTruthy phoneOpt = false then
                      redeemEarly 400 "Customer phone number not found."
                    else
                      if optStrTruthy req.otp_code then
                        match env.otpFetch with
                        | .threw => redeemCaught true false false none
                        | .notOk =>
                          { response :=
                              .errorResp 400 "OTP verification failed.",
                            otpVerifyCalled := true, otpVerified := false,
                            redeemCalled := false,
                            discountCreateRequested := none }
                        | .ok otpData =>
                          if otpData.error = true then
                            { response := .errorResp 400 "Invalid OTP.",
                              otpVerifyCalled := true, otpVerified := false,
                              redeemCalled := false,
                              discountCreateRequested := none }
                          else redeemCreatePhase req env true true
                      else redeemCreatePhase req env false false

/-! ## Interactive path: `api.loyalty.verify-otp.ts` (action) -/

/-- The parsed body of a verify-otp request.  The route reads the body
twice; `token` is the extra field read the second time.  String fields use
`""` for missing/empty (falsy); `cart_total` is the numeric value of the
submitted total, `none` when absent or empty. -/
structure VerifyOtpPayload where
  method : String
  user_phone : String
  otp : String
  cart_total : Option ℚ
  customer_gid : String
  token : String
deriving DecidableEq

/-- Result of the `priceRuleCreate` mutation as read by the route: GraphQL
client errors, `userErrors`, and the discount code returned (if any). -/
structure PriceRuleCreateResult where
  gqlErrors : List String
  userErrors : List String
  returnedCode : Option String
deriving DecidableEq

/-- The `PriceRuleInput` variables of the `priceRuleCreate` mutation as
constructed by the route (title and timestamps elided). -/
structure PriceRuleInput where
  valueAmount : ℚ
  oncePerCustomer : Bool
  usageLimit : Nat
  prerequisiteCustomerIds : List String
  code : String
deriving DecidableEq

/-- Environment of one verify-otp request: the admin session's shop (if
authentication succeeded), the database lookup, the two BillFree fetches,
the price-rule mutation outcome and the random code fragment. -/
structure VerifyOtpEnv where
  adminSessionShop : Option String
  dbLookup : CallOutcome (Option ShopSessionRecord)
  votpFetch : FetchOutcome BillfreeVerifyOtpResponse
  redeemFetch : FetchOutcome BillfreeRedeemResponse
  priceRuleCreate : CallOutcome PriceRuleCreateResult
  codeSeed : String
deriving DecidableEq

/-- Observable response of the verify-otp route: an error status with
message, a 200 `success: false` body with no discount, or a 200 success
carrying the created code. -/
inductive VerifyOtpRouteResponse where
  | errorResp (status : Nat) (msg : String)
  | noDiscount (msg : String)
  | success (discountCode : String)
deriving DecidableEq

/-- Trace of one verify-otp request. -/
structure VerifyOtpTrace where
  response : VerifyOtpRouteResponse
  votpCalled : Bool
  redeemCalled : Bool
  priceRuleRequested : Option PriceRuleInput
deriving DecidableEq

/-- An early error return of the verify-otp route. -/
def votpEarly (status : Nat) (msg : String) : VerifyOtpTrace :=
  { response := .errorResp status msg, votpCalled := false,
    redeemCalled := false, priceRuleRequested := none }

/-- The catch-all 500 response of the verify-otp route's `try` block. -/
def votpCaught (votp redeemed : Bool) (req : Option PriceRuleInput) :
    VerifyOtpTrace :=
  { response := .errorResp 500 "Failed to complete redemption: exception.",
    votpCalled := votp, redeemCalled := redeemed,
    priceRuleRequested := req }

/-- The `PriceRuleInput` variables the verify-otp route constructs for the
`priceRuleCreate` mutation: the `maxRedeemableAmt || 0` value, once per
customer, usage limit 1, prerequisite customer ids containing exactly the
requesting customer, and a random code. -/
def mkPriceRuleInput (p : VerifyOtpPayload) (env : VerifyOtpEnv)
    (redeemData : BillfreeRedeemResponse) : PriceRuleInput :=
  { valueAmount := numOr redeemData.maxRedeemableAmt 0,
    oncePerCustomer := true, usageLimit := 1,
    prerequisiteCustomerIds := [p.customer_gid],
    code := "LOYALTY-" ++ env.codeSeed }

/-- The redeem-and-create tail of the verify-otp route (from line 159 of
the source), entered after the BillFree OTP verification succeeded: the
BillFree redemption with the `maxRedeemableAmt || 0` value and its `<= 0`
guard, then the `priceRuleCreate` mutation with its error checks. -/
def verifyOtpRedeemPhase (p : VerifyOtpPayload) (env : VerifyOtpEnv) :
    VerifyOtpTrace :=
  match env.redeemFetch with
  | .threw => votpCaught true true none
  | .notOk => votpCaught true true none
  | .ok redeemData =>
    if redeemData.error = true then
      { response := .errorResp 400
          ("Redemption failed: " ++ redeemData.response),
        votpCalled := true, redeemCalled := true,
        priceRuleRequested := none }
    else
      if numOr redeemData.maxRedeemableAmt 0 ≤ 0 then
        { response := .noDiscount
            "No redeemable discount value received from Billfree.",
          votpCalled := true, redeemCalled := true,
          priceRuleRequested := none }
      else
        match env.priceRuleCreate with
        | .threw =>
          votpCaught true true (some (mkPriceRuleInput p env redeemData))
        | .ok res =>
          if res.gqlErrors.length > 0 then
            { response := .errorResp 500 "Shopify GraphQL client errors.",
              votpCalled := true, redeemCalled := true,
              priceRuleRequested :=
                some (mkPriceRuleInput p env redeemData) }
          else if res.userErrors.length > 0 then
            { response := .errorResp 500 "Failed to create Shopify discount.",
              votpCalled := true, redeemCalled := true,
              priceRuleRequested :=
                some (mkPriceRuleInput p env redeemData) }
          else
            match res.returnedCode with
            | none =>
              { response := .errorResp 500
                  "Failed to create Shopify discount code (code not returned).",
                votpCalled := true, redeemCalled := true,
                priceRuleRequested :=
                  some (mkPriceRuleInput p env redeemData) }
            | some code =>
              { response := .success code,
                votpCalled := true, redeemCalled := true,
                priceRuleRequested :=
                  some (mkPriceRuleInput p env redeemData) }

/-- Shallow embedding of the verify-otp action
(src/app/routes/api.loyalty.verify-otp.ts): method and admin-session
guards, required body fields (read twice, the second read also requiring
`token`), shop configuration, BillFree OTP verification, BillFree
redemption with the `maxRedeemableAmt || 0` value and its `<= 0` guard, and
the `priceRuleCreate` mutation with its error checks. -/
def verifyOtpAction (p : VerifyOtpPayload) (env : VerifyOtpEnv) :
    VerifyOtpTrace :=
  if p.method != "POST" then votpEarly 405 "Method Not Allowed"
  else
    match env.adminSessionShop with
    | none => votpEarly 401 "Unauthorized access."
    | some _shop =>
      if p.user_phone = "" ∨ p.otp = "" ∨ p.cart_total = none ∨
          p.customer_gid = "" then
        votpEarly 400
          "Missing required parameters for OTP verification or redemption."
      else
        match env.dbLookup with
        | .threw =>
          votpEarly 500 "Failed to retrieve Billfree auth token from database."
        | .ok sessionOpt =>
          match sessionOpt with
          | none =>
            votpEarly 400 "BillFree integration not configured for this shop."
          | some s =>
            if s.isBillFreeConfigured = false ∨
                optStrTruthy s.billFreeAuthToken = false then
              votpEarly 400
                "BillFree integration not configured for this shop."
            else
              if p.user_phone = "" ∨ p.otp = "" ∨ p.token = "" then
                votpEarly 400 "Missing user_phone, otp, or token"
              else
                match env.votpFetch with
                | .threw => votpCaught true false none
                | .notOk => votpCaught true false none
                | .ok verifyData =>
                  if verifyData.error = true then
                    { response := .errorResp 400 verifyData.response,
                      votpCalled := true, redeemCalled := false,
                      priceRuleRequested := none }
                  else verifyOtpRedeemPhase p env

/-! ## Points lookup proxy: `api.loyalty.points.ts` (loader) -/

/-- BillFree's points payload (`BillfreePointsResponse` in the source). -/
structure BillfreePointsResponse where
  error : Bool
  response : String
  balance : ℚ
  otpFlag : String
  scheme_message : String
deriving DecidableEq

/-- Result of the customer-phone GraphQL query as read by the loader:
GraphQL errors, and — when the `data` object is present — the value of
`customer?.phone`. -/
structure PhoneQueryResult where
  gqlErrors : List String
  queryData : Option (Option String)
deriving DecidableEq

/-- Query parameters of a points request; `searchParams.get` yields `none`
when a parameter is absent. -/
structure PointsRequestInput where
  customer_gid : Option String
  shop_domain : Option String
deriving DecidableEq

/-- Environment of one points request: the database lookup, the phone
query (its `threw` case also covers the loader's own thrown `Response` when
the GraphQL body is missing, observable as the same 500), and the BillFree
points fetch. -/
structure PointsEnv where
  dbLookup : CallOutcome (Option ShopSessionRecord)
  phoneQuery : CallOutcome PhoneQueryResult
  billfreeFetch : FetchOutcome BillfreePointsResponse
deriving DecidableEq

/-- JSON body of a points response; absent fields are `none`. -/
structure PointsRouteBody where
  errorMsg : Option String
  message : Option String
  balance : Option ℚ
  scheme_message : Option String
  otpFlag : Option String
  customerMobileNumber : Option String
deriving DecidableEq

/-- Trace of one points request, instrumented with whether the BillFree
balance call was performed. -/
structure PointsTrace where
  status : Nat
  body : PointsRouteBody
  billfreeCalled : Bool
deriving DecidableEq

/-- A points response consisting only of an `error` field. -/
def pointsErrorOnly (status : Nat) (msg : String) : PointsTrace :=
  { status := status,
    body := { errorMsg := some msg, message := none, balance := none,
              scheme_message := none, otpFlag := none,
              customerMobileNumber := none },
    billfreeCalled := false }

/-- A points response consisting only of a `message` field. -/
def pointsMessageOnly (status : Nat) (msg : String) : PointsTrace :=
  { status := status,
    body := { errorMsg := none, message := some msg, balance := none,
              scheme_message := none, otpFlag := none,
              customerMobileNumber := none },
    billfreeCalled := false }

/-- The source's `customerGid.split('/').pop()`: the last `/`-separated
segment of the GID, computed on the character list. -/
def lastGidSegment (gid : String) : String :=
  ⟨(gid.data.splitOn '/').getLastD []⟩

/-- Shallow embedding of the points loader
(src/app/routes/api.loyalty.points.ts): GID and configuration guards, the
Shopify customer-phone lookup with its error branches, the no-phone
"add a phone number" response, and the BillFree balance call. -/
def loyaltyPointsLoader (req : PointsRequestInput) (env : PointsEnv) :
    PointsTrace :=
  if optStrTruthy req.customer_gid = false then
    pointsErrorOnly 400 "Customer GID missing in request parameters."
  else
    if lastGidSegment (req.customer_gid.getD "") = "" then
      pointsErrorOnly 400 "Invalid Customer GID format."
    else
      match env.dbLookup with
      | .threw =>
        pointsErrorOnly 500
          "Failed to retrieve Billfree auth token from database."
      | .ok sessionOpt =>
        match sessionOpt with
        | none =>
          pointsMessageOnly 400
            "BillFree integration not fully configured for this shop."
        | some s =>
          if s.isBillFreeConfigured = false ∨
              optStrTruthy s.billFreeAuthToken = false ∨
              optStrTruthy s.accessToken = false then
            pointsMessageOnly 400
              "BillFree integration not fully configured for this shop."
          else
            if optStrTruthy s.accessToken = false ∨
                optStrTruthy req.shop_domain = false then
              pointsMessageOnly 401
                "Authentication required. App may need re-installation."
            else
              match env.phoneQuery with
              | .threw =>
                pointsErrorOnly 500
                  "Server error during phone number lookup from Shopify."
              | .ok qres =>
                if qres.gqlErrors.length > 0 then
                  pointsErrorOnly 500
                    "Failed to fetch customer phone number from Shopify due to API errors."
                else
                  match qres.queryData with
                  | none =>
                    pointsErrorOnly 500
                      "Failed to retrieve customer data from Shopify."
                  | some phoneOpt =>
                    if optStrTruthy phoneOpt = false then
                      { status := 200,
                        body :=
                          { errorMsg := some
                              "Customer phone number not available on Shopify profile. Cannot fetch loyalty points.",
                            message := none, balance := some 0,
                            scheme_message := some
                              "Please add a phone number to your profile to check loyalty points.",
                            otpFlag := some "y",
                            customerMobileNumber := none },
                        billfreeCalled := false }
                    else
                      let mobile := phoneOpt.getD ""
                      match env.billfreeFetch with
                      | .threw =>
                        { pointsErrorOnly 500
                            "Failed to fetch loyalty points from external service." with
                          billfreeCalled := true }
                      | .notOk =>
                        { pointsErrorOnly 500
                            "Failed to fetch loyalty points from external service." with
                          billfreeCalled := true }
                      | .ok billfreeData =>
                        if billfreeData.error = true then
                          { status := 500,
                            body :=
                              { errorMsg := some
                                  ("Billfree API reported an error: " ++
                                    billfreeData.response),
                                message := none, balance := some 0,
                                scheme_message :=
                                  some billfreeData.scheme_message,
                                otpFlag := some billfreeData.otpFlag,
                                customerMobileNumber := some mobile },
                            billfreeCalled := true }
                        else
                          { status := 200,
                            body :=
                              { errorMsg := none, message := none,
                                balance := some billfreeData.balance,
                                scheme_message :=
                                  some billfreeData.scheme_message,
                                otpFlag := some billfreeData.otpFlag,
                                customerMobileNumber := some mobile },
                            billfreeCalled := true }

/-! ## OTP dispatch: `api.send-otp.ts` (action) -/

/-- BillFree's send-OTP payload: the route reads `error`, `response` and the
optional `token`. -/
structure BillfreeSendOtpResponse where
  error : Bool
  response : String
  token : Option String
deriving DecidableEq

/-- The parsed body and headers of a send-otp request. -/
structure SendOtpRequestInput where
  method : String
  authHeader : Option String
  user_phone : String
deriving DecidableEq

/-- Environment of one send-otp request. -/
structure SendOtpEnv where
  tokenDecode : CallOutcome String
  dbLookup : CallOutcome (Option ShopSessionRecord)
  cotpFetch : FetchOutcome BillfreeSendOtpResponse
deriving DecidableEq

/-- JSON body of a send-otp response.  `errorBool` is the boolean `error`
field of the three dispatch-stage responses; it is `none` for the earlier
responses, whose `error` field is a string (kept in `errorStr`), and for
the body-less 204 preflight. -/
structure SendOtpBody where
  errorBool : Option Bool
  errorStr : Option String
  message : Option String
deriving DecidableEq

/-- Trace of one send-otp request. -/
structure SendOtpTrace where
  status : Nat
  body : SendOtpBody
deriving DecidableEq

/-- A send-otp response with a string `error` field. -/
def sendOtpStrError (status : Nat) (msg : String) : SendOtpTrace :=
  { status := status,
    body := { errorBool := none, errorStr := some msg, message := none } }

/-- Shallow embedding of the send-otp action (src/app/routes/api.send-otp.ts).
At the dispatch stage the source inverts its own `error` flag: provider
failure and thrown fetch produce `error: false`, success produces
`error: true`. -/
def sendOtpAction (req : SendOtpRequestInput) (env : SendOtpEnv) :
    SendOtpTrace :=
  if req.method == "OPTIONS" then
    { status := 204,
      body := { errorBool := none, errorStr := none, message := none } }
  else if req.method != "POST" then
    sendOtpStrError 405 "Method Not Allowed"
  else
    match req.authHeader with
    | none => sendOtpStrError 401 "Missing or invalid authorization token."
    | some h =>
      if ¬ strStartsWith h "Bearer " then
        sendOtpStrError 401 "Missing or invalid authorization token."
      else
        match env.tokenDecode with
        | .threw => sendOtpStrError 401 "Invalid session token."
        | .ok _shopDomain =>
          if req.user_phone = "" then
            sendOtpStrError 400 "Customer phone number is required."
          else
            match env.dbLookup with
            | .threw =>
              sendOtpStrError 500 "Failed to retrieve BillFree auth token."
            | .ok sessionOpt =>
              match sessionOpt with
              | none =>
                { status := 400,
                  body := { errorBool := none, errorStr := none,
                            message :=
                              some "BillFree integration not configured." } }
              | some s =>
                if s.isBillFreeConfigured = false ∨
                    optStrTruthy s.billFreeAuthToken = false then
                  { status := 400,
                    body := { errorBool := none, errorStr := none,
                              message :=
                                some "BillFree integration not configured." } }
                else
                  match env.cotpFetch with
                  | .threw =>
                    { status := 500,
                      body := { errorBool := some false, errorStr := none,
                                message := some "Failed to send OTP." } }
                  | .notOk =>
                    { status := 500,
                      body := { errorBool := some false, errorStr := none,
                                message := some "Failed to send OTP." } }
                  | .ok d =>
                    if d.error = true then
                      { status := 400,
                        body := { errorBool := some false, errorStr := none,
                                  message := some d.response } }
                    else
                      { status := 200,
                        body := { errorBool := some true, errorStr := none,
                                  message := some d.response } }

/-- A send-otp request reaches the dispatch stage when it is a POST with a
decodable bearer token, a nonempty phone number and a configured shop. -/
def sendOtpReachesDispatch (req : SendOtpRequestInput) (env : SendOtpEnv) :
    Prop :=
  req.method = "POST" ∧
  (∃ h, req.authHeader = some h ∧ strStartsWith h "Bearer " = true) ∧
  (∃ sh, env.tokenDecode = .ok sh) ∧
  req.user_phone ≠ "" ∧
  (∃ s, env.dbLookup = .ok (some s) ∧ s.isBillFreeConfigured = true ∧
    optStrTruthy s.billFreeAuthToken = true)

/-- The OTP dispatch actually succeeded: the BillFree call completed with
its error flag clear. -/
def sendOtpDispatchSucceeded (env : SendOtpEnv) : Prop :=
  ∃ d, env.cotpFetch = .ok d ∧ d.error = false

/-! ## Concrete evaluation data -/

/-- A configured shop session used in concrete evaluations. -/
def sampleShopSession : ShopSessionRecord :=
  { billFreeAuthToken := some "bf-token", isBillFreeConfigured := true,
    accessToken := some "shpat-token", shop := "test-shop.myshopify.com" }

/-- Checkout input with a logged-in customer, a configured proxy URL and a
cart subtotal of 100.00. -/
def sampleCartInput : CartInput :=
  { customerId := some "gid://shopify/Customer/777",
    metafield := some { value := some "https://proxy.example.com" },
    subtotalAmount := { amount := 100, currencyCode := "INR" } }

/-- Points payload: balance 120, no OTP requirement, resolvable phone. -/
def samplePointsOk : GetPointsProxyResponse :=
  { balance := 120, scheme_message := "", otpFlag := "n",
    customerMobileNumber := "9876543210", error := none }

/-- Checkout environment for the concrete scenario of claim C5: points
balance 120 without OTP, redeem value 150 against subtotal 100. -/
def c5Env : CheckoutEnv :=
  { pointsFetch := .ok samplePointsOk,
    redeemFetch := .ok { discount_value_rupees := 150, error := none } }

/-- The single candidate claim C5 expects: fixed amount 100.00 applied to
the order subtotal. -/
def c5Candidate : OrderDiscountCandidate :=
  { fixedAmount := { amount := 100, appliesToEachLineItem := false },
    targetsOrderSubtotal := true }

/-- The single operation claim C5 expects. -/
def c5Operation : OrderDiscountsAddOperation :=
  { candidates := [c5Candidate], selectionStrategyFirst := true }

/-- Points payload reporting an OTP-gated account with a positive balance. -/
def otpGatedPointsPayload : GetPointsProxyResponse :=
  { balance := 80, scheme_message := "", otpFlag := "y",
    customerMobileNumber := "9876543210", error := none }

/-- Checkout environment whose points lookup reports an OTP-gated account
(`otpFlag = "y"`) with a positive balance. -/
def otpGatedCheckoutEnv : CheckoutEnv :=
  { pointsFetch := .ok otpGatedPointsPayload,
    redeemFetch := .ok { discount_value_rupees := 40, error := none } }

/-- Points payload reporting a zero balance. -/
def zeroBalancePointsPayload : GetPointsProxyResponse :=
  { balance := 0, scheme_message := "", otpFlag := "n",
    customerMobileNumber := "9876543210", error := none }

/-- Checkout environment whose points lookup reports a zero balance. -/
def zeroBalanceCheckoutEnv : CheckoutEnv :=
  { pointsFetch := .ok zeroBalancePointsPayload,
    redeemFetch := .ok { discount_value_rupees := 40, error := none } }

/-- Checkout environment whose points fetch returned a non-2xx status. -/
def failingCheckoutEnv : CheckoutEnv :=
  { pointsFetch := .notOk,
    redeemFetch := .ok { discount_value_rupees := 40, error := none } }

/-- A well-formed interactive redeem request without an OTP code, for a
bill amount of 100. -/
def sampleRedeemRequest : RedeemRequestInput :=
  { method := "POST", authHeader := some "Bearer session-token",
    customer_id := "gid://shopify/Customer/777", otp_code := none,
    bill_amt := some 100 }

/-- BillFree redeem payload granting 150 — more than the 100 bill amount —
for an account it reports as not OTP-gated. -/
def overAmtRedeemPayload : BillfreeRedeemResponse :=
  { error := false, response := "l5", discount_value_rupees := 0,
    maxRedeemablePts := 1500, maxRedeemableAmt := 150, net_payable := 0,
    otpFlag := "n", scheme_message := "" }

/-- Interactive environment in which every call succeeds and the redeem
grants 150. -/
def overAmtRedeemEnv : RedeemEnv :=
  { tokenDecode := .ok "test-shop.myshopify.com",
    dbLookup := .ok (some sampleShopSession),
    phoneLookup := .ok (some "9876543210"), otpFetch := .threw,
    redeemFetch := .ok overAmtRedeemPayload, createCall := .ok [], now := 0 }

/-- BillFree redeem payload that grants 50 while reporting the account as
OTP-gated (`otpFlag = "y"`). -/
def otpGatedRedeemPayload : BillfreeRedeemResponse :=
  { error := false, response := "l5", discount_value_rupees := 0,
    maxRedeemablePts := 500, maxRedeemableAmt := 50, net_payable := 50,
    otpFlag := "y", scheme_message := "" }

/-- Interactive environment in which the redeem succeeds with 50 for an
account the provider reports as OTP-gated. -/
def otpGatedRedeemEnv : RedeemEnv :=
  { tokenDecode := .ok "test-shop.myshopify.com",
    dbLookup := .ok (some sampleShopSession),
    phoneLookup := .ok (some "9876543210"), otpFetch := .threw,
    redeemFetch := .ok otpGatedRedeemPayload, createCall := .ok [], now := 1 }

/-- A redeem request submitting the (wrong) OTP code `0000`. -/
def wrongOtpRedeemRequest : RedeemRequestInput :=
  { method := "POST", authHeader := some "Bearer session-token",
    customer_id := "gid://shopify/Customer/777", otp_code := some "0000",
    bill_amt := some 100 }

/-- Interactive environment in which the BillFree OTP verification reports
an error (wrong OTP). -/
def wrongOtpRedeemEnv : RedeemEnv :=
  { tokenDecode := .ok "test-shop.myshopify.com",
    dbLookup := .ok (some sampleShopSession),
    phoneLookup := .ok (some "9876543210"),
    otpFetch := .ok { error := true, response := "wrong otp" },
    redeemFetch := .ok overAmtRedeemPayload, createCall := .ok [], now := 2 }

/-- Interactive environment in which the customer has no phone on file. -/
def noPhoneRedeemEnv : RedeemEnv :=
  { tokenDecode := .ok "test-shop.myshopify.com",
    dbLookup := .ok (some sampleShopSession), phoneLookup := .ok none,
    otpFetch := .threw, redeemFetch := .ok overAmtRedeemPayload,
    createCall := .ok [], now := 3 }

/-- A verify-otp payload with all required fields present. -/
def sampleVerifyPayload : VerifyOtpPayload :=
  { method := "POST", user_phone := "9876543210", otp := "1234",
    cart_total := some 500, customer_gid := "gid://shopify/Customer/777",
    token := "votp-token" }

/-- BillFree redeem payload granting 200 on the verify-otp path. -/
def verifyRedeemPayload : BillfreeRedeemResponse :=
  { error := false, response := "l5", discount_value_rupees := 0,
    maxRedeemablePts := 2000, maxRedeemableAmt := 200, net_payable := 300,
    otpFlag := "n", scheme_message := "" }

/-- Result of a successful `priceRuleCreate` mutation. -/
def okPriceRuleResult : PriceRuleCreateResult :=
  { gqlErrors := [], userErrors := [], returnedCode := some "LOYALTY-AB12CD34" }

/-- Verify-otp environment in which every call succeeds. -/
def sampleVerifyEnv : VerifyOtpEnv :=
  { adminSessionShop := some "test-shop.myshopify.com",
    dbLookup := .ok (some sampleShopSession),
    votpFetch := .ok { error := false, response := "verified" },
    redeemFetch := .ok verifyRedeemPayload,
    priceRuleCreate := .ok okPriceRuleResult,
    codeSeed := "AB12CD34" }

/-- A points request with a valid customer GID and shop domain. -/
def samplePointsRequest : PointsRequestInput :=
  { customer_gid := some "gid://shopify/Customer/777",
    shop_domain := some "test-shop.myshopify.com" }

/-- A successful BillFree points payload. -/
def billfreePointsPayload : BillfreePointsResponse :=
  { error := false, response := "l2", balance := 120, otpFlag := "n",
    scheme_message := "" }

/-- Points environment in which the Shopify customer record has no phone. -/
def noPhonePointsEnv : PointsEnv :=
  { dbLookup := .ok (some sampleShopSession),
    phoneQuery := .ok { gqlErrors := [], queryData := some none },
    billfreeFetch := .ok billfreePointsPayload }

/-- A well-formed send-otp request. -/
def sampleSendOtpRequest : SendOtpRequestInput :=
  { method := "POST", authHeader := some "Bearer session-token",
    user_phone := "9876543210" }

/-- A successful BillFree send-OTP payload. -/
def okSendOtpPayload : BillfreeSendOtpResponse :=
  { error := false, response := "OTP sent", token := some "votp-token" }

/-- Send-otp environment in which BillFree dispatches successfully. -/
def sendOtpOkEnv : SendOtpEnv :=
  { tokenDecode := .ok "test-shop.myshopify.com",
    dbLookup := .ok (some sampleShopSession),
    cotpFetch := .ok okSendOtpPayload }

/-- The discount-creation variables produced in the `otpGatedRedeemEnv`
run (clock value 1, amount 50). -/
def c2CodeInput : DiscountCodeAppInput :=
  { code := "BILLFREE1", usageLimit := 1, appliesOncePerCustomer := true,
    customersAdded := ["gid://shopify/Customer/777"], amount := 50 }

/-- The discount-creation variables produced in the `overAmtRedeemEnv` run
(clock value 0, amount 150). -/
def c7CodeInput : DiscountCodeAppInput :=
  { code := "BILLFREE0", usageLimit := 1, appliesOncePerCustomer := true,
    customersAdded := ["gid://shopify/Customer/777"], amount := 150 }

/-- The price-rule variables produced in the `sampleVerifyEnv` run. -/
def c7RuleInput : PriceRuleInput :=
  { valueAmount := 200, oncePerCustomer := true, usageLimit := 1,
    prerequisiteCustomerIds := ["gid://shopify/Customer/777"],
    code := "LOYALTY-AB12CD34" }

/-- The 200 response the points loader returns when the customer has no
phone number on file: balance 0, an "add a phone number" scheme message,
and no BillFree call. -/
def addPhonePointsTrace : PointsTrace :=
  { status := 200,
    body :=
      { errorMsg := some
          "Customer phone number not available on Shopify profile. Cannot fetch loyalty points.",
        message := none, balance := some 0,
        scheme_message := some
          "Please add a phone number to your profile to check loyalty points.",
        otpFlag := some "y", customerMobileNumber := none },
    billfreeCalled := false }

/-- A redeem-points trace is "early" when it was produced before the
point-debiting stage: nothing was created, the redeem call was not made,
no OTP was verified and the response is not a success. -/
def earlyRedeemTrace (t : RedeemTrace) : Prop :=
  t.discountCreateRequested = none ∧ t.redeemCalled = false ∧
  t.otpVerified = false ∧
  ∀ c a p, t.response ≠ RouteResponse.success c a p

theorem redeemPhase_cases (cartSubtotal : ℚ)
    (redeemFetch : FetchOutcome RedeemProxyResponse) :
    checkoutRedeemPhase cartSubtotal redeemFetch = checkoutNoOpAfterRedeem ∨
    ∃ r, redeemFetch = .ok r ∧
      0 < min (numOr r.discount_value_rupees 0) cartSubtotal ∧
      checkoutRedeemPhase cartSubtotal redeemFetch =
        { operations :=
            [{ candidates :=
                [{ fixedAmount :=
                    { amount := min (numOr r.discount_value_rupees 0)
                        cartSubtotal,
                      appliesToEachLineItem := false },
                   targetsOrderSubtotal := true }],
               selectionStrategyFirst := true }],
           redeemCalled := true } := by
  rcases redeemFetch with _ | _ | r
  · exact Or.inl rfl
  · exact Or.inl rfl
  · by_cases herr : optStrTruthy r.error = true
    · exact Or.inl (by simp [checkoutRedeemPhase, herr])
    · by_cases hpos : 0 < min (numOr r.discount_value_rupees 0) cartSubtotal
      · exact Or.inr ⟨r, rfl, hpos, by
          simp [checkoutRedeemPhase, herr, hpos]⟩
      · exact Or.inl (by simp [checkoutRedeemPhase, herr, hpos])

theorem run_cases (input : CartInput) (env : CheckoutEnv) :
    cartLinesDiscountsGenerateRun input env = checkoutNoOp ∨
    cartLinesDiscountsGenerateRun input env =
      checkoutRedeemPhase input.subtotalAmount.amount env.redeemFetch := by
  unfold cartLinesDiscountsGenerateRun
  rcases h : input.customerId with _ | cid
  · exact Or.inl rfl
  · rcases hm : input.metafield with _ | mf
    · exact Or.inl rfl
    · by_cases hval : optStrTruthy mf.value = true
      · simp only [hval, if_true]
        unfold checkoutPointsPhase
        rcases hp : env.pointsFetch with _ | _ | p
        · exact Or.inl rfl
        · exact Or.inl rfl
        · by_cases herr : optStrTruthy p.error = true
          · exact Or.inl (by simp [herr])
          · by_cases hmob :
                p.customerMobileNumber = "" ∨ numOr p.balance 0 ≤ 0
            · exact Or.inl (by simp [herr, hmob])
            · by_cases hotp : (p.otpFlag == "y") = true
              · exact Or.inl (by simp [herr, hmob, hotp])
              · exact Or.inr (by simp [herr, hmob, hotp])
      · exact Or.inl (by simp [hval])

/-- Every discount the checkout function emits targets the order subtotal
with amount `min R S`: positive and bounded by the cart subtotal. -/
theorem checkout_emitted_amount_is_min (input : CartInput) (env : CheckoutEnv)
    (op : OrderDiscountsAddOperation) (c : OrderDiscountCandidate)
    (hop : op ∈ (cartLinesDiscountsGenerateRun input env).operations)
    (hc : c ∈ op.candidates) :
    0 < c.fixedAmount.amount ∧
    c.fixedAmount.amount ≤ input.subtotalAmount.amount ∧
    ∃ r, env.redeemFetch = .ok r ∧
      c.fixedAmount.amount =
        min (numOr r.discount_value_rupees 0) input.subtotalAmount.amount := by
  rcases run_cases input env with h | h
  · rw [h] at hop; simp [checkoutNoOp] at hop
  · rw [h] at hop
    rcases redeemPhase_cases input.subtotalAmount.amount env.redeemFetch with
      h2 | ⟨r, hr, hpos, h2⟩
    · rw [h2] at hop; simp [checkoutNoOpAfterRedeem] at hop
    · rw [h2] at hop
      simp only [List.mem_singleton] at hop
      subst hop
      simp only [List.mem_singleton] at hc
      subst hc
      exact ⟨hpos, min_le_right _ _, r, hr, rfl⟩

theorem numOr_nonpos {b : ℚ} (hb : b ≤ 0) : numOr b 0 ≤ 0 := by
  unfold numOr
  split_ifs with h
  · exact le_refl 0
  · exact hb

theorem checkout_noop_of_points (input : CartInput) (env : CheckoutEnv)
    (p : GetPointsProxyResponse) (hp : env.pointsFetch = .ok p)
    (h : optStrTruthy p.error = true ∨ p.customerMobileNumber = "" ∨
         numOr p.balance 0 ≤ 0 ∨ p.otpFlag = "y") :
    cartLinesDiscountsGenerateRun input env = checkoutNoOp := by
  unfold cartLinesDiscountsGenerateRun
  rcases input.customerId with _ | cid
  · rfl
  rcases input.metafield with _ | mf
  · rfl
  by_cases hval : optStrTruthy mf.value = true
  · simp only [hval, if_true]
    unfold checkoutPointsPhase
    simp only [hp]
    split_ifs with h1 h2 h3 <;> try rfl
    rcases h with h | h | h | h
    · exact absurd h h1
    · exact absurd (Or.inl h) h2
    · exact absurd (Or.inr h) h2
    · exact absurd (by simp [h]) h3
  · simp [hval]

theorem checkout_noop_of_input (input : CartInput) (env : CheckoutEnv)
    (h : input.customerId = none ∨ input.metafield = none ∨
         ∃ mf, input.metafield = some mf ∧ optStrTruthy mf.value = false) :
    cartLinesDiscountsGenerateRun input env = checkoutNoOp := by
  unfold cartLinesDiscountsGenerateRun
  rcases h with h | h | ⟨mf, hmf, hval⟩
  · simp only [h]
  · rcases hcid : input.customerId with _ | cid
    · rfl
    · simp only [h]
  · rcases hcid : input.customerId with _ | cid
    · rfl
    · simp [hmf, hval]

theorem checkout_noop_of_pointsFetch_fail (input : CartInput)
    (env : CheckoutEnv)
    (h : env.pointsFetch = .threw ∨ env.pointsFetch = .notOk) :
    cartLinesDiscountsGenerateRun input env = checkoutNoOp := by
  unfold cartLinesDiscountsGenerateRun
  rcases input.customerId with _ | cid
  · rfl
  rcases input.metafield with _ | mf
  · rfl
  by_cases hval : optStrTruthy mf.value = true
  · simp only [hval, if_true]
    unfold checkoutPointsPhase
    rcases h with h | h <;> simp only [h]
  · simp [hval]

theorem redeemPhase_ops_empty_of_fail (s : ℚ)
    (f : FetchOutcome RedeemProxyResponse)
    (h : f = .threw ∨ f = .notOk ∨
         ∃ r, f = .ok r ∧ optStrTruthy r.error = true) :
    (checkoutRedeemPhase s f).operations = [] := by
  unfold checkoutRedeemPhase
  rcases h with h | h | ⟨r, hr, herr⟩
  · simp only [h]; rfl
  · simp only [h]; rfl
  · simp only [hr, herr, if_true]; rfl

/-- Claim C3: when the checkout points lookup reports `otpFlag = "y"`
(OTP required), the function returns an empty operations list and the
point-debiting redeem call is never made. -/
theorem C3_otp_gated_checkout_no_discount (input : CartInput)
    (env : CheckoutEnv) (p : GetPointsProxyResponse)
    (hp : env.pointsFetch = .ok p) (hy : p.otpFlag = "y") :
    (cartLinesDiscountsGenerateRun input env).operations = [] ∧
    (cartLinesDiscountsGenerateRun input env).redeemCalled = false := by
  rw [checkout_noop_of_points input env p hp (Or.inr (Or.inr (Or.inr hy)))]
  exact ⟨rfl, rfl⟩

/-- Witness for C3 at a concrete OTP-gated environment. -/
theorem C3_witness :
    otpGatedCheckoutEnv.pointsFetch = .ok otpGatedPointsPayload ∧
    otpGatedPointsPayload.otpFlag = "y" ∧
    (cartLinesDiscountsGenerateRun sampleCartInput
        otpGatedCheckoutEnv).operations = [] ∧
    (cartLinesDiscountsGenerateRun sampleCartInput
        otpGatedCheckoutEnv).redeemCalled = false :=
  ⟨rfl, rfl, C3_otp_gated_checkout_no_discount sampleCartInput
    otpGatedCheckoutEnv otpGatedPointsPayload rfl rfl⟩

/-- Claim C4: every failure in the checkout path — missing customer,
missing proxy configuration, failed or error-flagged points lookup, failed
or error-flagged redeem call — yields an empty operations list; the
embedding is a total function, so no error is surfaced. -/
theorem C4_checkout_fail_silent (input : CartInput) (env : CheckoutEnv)
    (h : input.customerId = none ∨ input.metafield = none ∨
         (∃ mf, input.metafield = some mf ∧ optStrTruthy mf.value = false) ∨
         env.pointsFetch = .threw ∨ env.pointsFetch = .notOk ∨
         (∃ p, env.pointsFetch = .ok p ∧ optStrTruthy p.error = true) ∨
         env.redeemFetch = .threw ∨ env.redeemFetch = .notOk ∨
         (∃ r, env.redeemFetch = .ok r ∧ optStrTruthy r.error = true)) :
    (cartLinesDiscountsGenerateRun input env).operations = [] := by
  rcases h with h | h | h | h | h | ⟨p, hp, herr⟩ | h | h | h
  · rw [checkout_noop_of_input input env (Or.inl h)]; rfl
  · rw [checkout_noop_of_input input env (Or.inr (Or.inl h))]; rfl
  · rw [checkout_noop_of_input input env (Or.inr (Or.inr h))]; rfl
  · rw [checkout_noop_of_pointsFetch_fail input env (Or.inl h)]; rfl
  · rw [checkout_noop_of_pointsFetch_fail input env (Or.inr h)]; rfl
  · rw [checkout_noop_of_points input env p hp (Or.inl herr)]; rfl
  · rcases run_cases input env with hr | hr <;> rw [hr]
    · rfl
    · exact redeemPhase_ops_empty_of_fail _ _ (Or.inl h)
  · rcases run_cases input env with hr | hr <;> rw [hr]
    · rfl
    · exact redeemPhase_ops_empty_of_fail _ _ (Or.inr (Or.inl h))
  · rcases run_cases input env with hr | hr <;> rw [hr]
    · rfl
    · exact redeemPhase_ops_empty_of_fail _ _ (Or.inr (Or.inr h))

/-- Witness for C4 at a concrete failing points fetch. -/
theorem C4_witness :
    failingCheckoutEnv.pointsFetch = FetchOutcome.notOk ∧
    (cartLinesDiscountsGenerateRun sampleCartInput
        failingCheckoutEnv).operations = [] :=
  ⟨rfl, C4_checkout_fail_silent sampleCartInput failingCheckoutEnv
    (Or.inr (Or.inr (Or.inr (Or.inr (Or.inl rfl)))))⟩

/-- Claim C5: with points `{balance: 120, otpFlag: "n"}`, a resolvable
phone, subtotal 100.00 and a redeem value of 150, the checkout function
emits exactly one order-level fixed-amount discount of 100.00 targeting
the order subtotal. -/
theorem C5_concrete_checkout_emission :
    cartLinesDiscountsGenerateRun sampleCartInput c5Env =
      { operations := [c5Operation], redeemCalled := true } := by
  decide

/-- Claim C6: when the checkout points lookup reports a non-positive
balance, the operations list is empty regardless of every other field, and
the redeem call is never made. -/
theorem C6_zero_balance_checkout_no_discount (input : CartInput)
    (env : CheckoutEnv) (p : GetPointsProxyResponse)
    (hp : env.pointsFetch = .ok p) (hb : p.balance ≤ 0) :
    (cartLinesDiscountsGenerateRun input env).operations = [] ∧
    (cartLinesDiscountsGenerateRun input env).redeemCalled = false := by
  rw [checkout_noop_of_points input env p hp
    (Or.inr (Or.inr (Or.inl (numOr_nonpos hb))))]
  exact ⟨rfl, rfl⟩

/-- Witness for C6 at a concrete zero-balance environment. -/
theorem C6_witness :
    zeroBalanceCheckoutEnv.pointsFetch = .ok zeroBalancePointsPayload ∧
    zeroBalancePointsPayload.balance ≤ 0 ∧
    (cartLinesDiscountsGenerateRun sampleCartInput
        zeroBalanceCheckoutEnv).operations = [] ∧
    (cartLinesDiscountsGenerateRun sampleCartInput
        zeroBalanceCheckoutEnv).redeemCalled = false :=
  ⟨rfl, by norm_num [zeroBalancePointsPayload],
    C6_zero_balance_checkout_no_discount sampleCartInput
      zeroBalanceCheckoutEnv zeroBalancePointsPayload rfl (by
        norm_num [zeroBalancePointsPayload])⟩

theorem redeemAction_cases (req : RedeemRequestInput) (env : RedeemEnv) :
    earlyRedeemTrace (redeemPointsAction req env) ∨
    redeemPointsAction req env =
      redeemCreatePhase req env (optStrTruthy req.otp_code)
        (optStrTruthy req.otp_code) := by
  unfold redeemPointsAction
  repeat' split
  all_goals
    first
      | exact Or.inl ⟨rfl, rfl, rfl, fun c a p h => RouteResponse.noConfusion h⟩
      | exact Or.inr (by simp_all)

theorem createPhase_otpVerified (req : RedeemRequestInput) (env : RedeemEnv)
    (oc ov : Bool) : (redeemCreatePhase req env oc ov).otpVerified = ov := by
  unfold redeemCreatePhase
  rcases env.redeemFetch with _ | _ | r
  · rfl
  · rfl
  · dsimp only
    split
    · rfl
    · rcases env.createCall with _ | ue
      · rfl
      · dsimp only
        split <;> rfl

theorem createPhase_requested (req : RedeemRequestInput) (env : RedeemEnv)
    (oc ov : Bool) (v : DiscountCodeAppInput)
    (h : (redeemCreatePhase req env oc ov).discountCreateRequested = some v) :
    ∃ r, env.redeemFetch = .ok r ∧ r.error = false ∧
      r.maxRedeemableAmt ≠ 0 ∧ v = mkDiscountCodeAppInput req env r := by
  unfold redeemCreatePhase at h
  rcases hred : env.redeemFetch with _ | _ | r <;> simp only [hred] at h
  · exact absurd h (by simp [redeemCaught])
  · exact absurd h (by simp)
  · by_cases hguard : r.error = true ∨ r.maxRedeemableAmt = 0
    · rw [if_pos hguard] at h
      exact absurd h (by simp)
    · rw [if_neg hguard] at h
      push_neg at hguard
      obtain ⟨herr, hamt⟩ := hguard
      refine ⟨r, rfl, by simpa using herr, hamt, ?_⟩
      rcases hcc : env.createCall with _ | ue <;> simp only [hcc] at h
      · simpa [redeemCaught] using h.symm
      · by_cases hue : ue.length > 0
        · rw [if_pos hue] at h
          simpa using h.symm
        · rw [if_neg hue] at h
          simpa using h.symm

theorem createPhase_success (req : RedeemRequestInput) (env : RedeemEnv)
    (oc ov : Bool) (code : String) (amt pts : ℚ)
    (h : (redeemCreatePhase req env oc ov).response =
      .success code amt pts) :
    ∃ r, env.redeemFetch = .ok r ∧ r.error = false ∧
      r.maxRedeemableAmt ≠ 0 ∧ amt = r.maxRedeemableAmt ∧
      pts = r.maxRedeemablePts := by
  unfold redeemCreatePhase at h
  rcases hred : env.redeemFetch with _ | _ | r <;> simp only [hred] at h
  · exact absurd h (by simp [redeemCaught])
  · exact absurd h (by simp)
  · by_cases hguard : r.error = true ∨ r.maxRedeemableAmt = 0
    · rw [if_pos hguard] at h
      exact absurd h (by simp)
    · rw [if_neg hguard] at h
      push_neg at hguard
      obtain ⟨herr, hamt⟩ := hguard
      refine ⟨r, rfl, by simpa using herr, hamt, ?_⟩
      rcases hcc : env.createCall with _ | ue <;> simp only [hcc] at h
      · exact absurd h (by simp [redeemCaught])
      · by_cases hue : ue.length > 0
        · rw [if_pos hue] at h
          exact absurd h (by simp)
        · rw [if_neg hue] at h
          simp only [RouteResponse.success.injEq] at h
          exact ⟨h.2.1.symm, h.2.2.symm⟩

theorem redeemAction_requested (req : RedeemRequestInput) (env : RedeemEnv)
    (v : DiscountCodeAppInput)
    (h : (redeemPointsAction req env).discountCreateRequested = some v) :
    (∃ r, env.redeemFetch = .ok r ∧ r.error = false ∧
       r.maxRedeemableAmt ≠ 0 ∧ v = mkDiscountCodeAppInput req env r) ∧
    (redeemPointsAction req env).otpVerified = optStrTruthy req.otp_code := by
  rcases redeemAction_cases req env with ⟨hnone, _, _, _⟩ | heq
  · rw [hnone] at h
    cases h
  · rw [heq] at h
    rw [heq]
    exact ⟨createPhase_requested req env _ _ v h,
      createPhase_otpVerified req env _ _⟩

theorem redeemAction_success (req : RedeemRequestInput) (env : RedeemEnv)
    (code : String) (amt pts : ℚ)
    (h : (redeemPointsAction req env).response = .success code amt pts) :
    ∃ r, env.redeemFetch = .ok r ∧ r.error = false ∧
      r.maxRedeemableAmt ≠ 0 ∧ amt = r.maxRedeemableAmt ∧
      pts = r.maxRedeemablePts := by
  rcases redeemAction_cases req env with ⟨_, _, _, hns⟩ | heq
  · exact absurd h (hns _ _ _)
  · rw [heq] at h
    exact createPhase_success req env _ _ code amt pts h

theorem checkout_ops_nonempty_guard (input : CartInput) (env : CheckoutEnv)
    (h : (cartLinesDiscountsGenerateRun input env).operations ≠ []) :
    ∃ p, env.pointsFetch = .ok p ∧ 0 < numOr p.balance 0 ∧
      p.otpFlag ≠ "y" := by
  rcases hpf : env.pointsFetch with _ | _ | p
  · refine absurd ?_ h
    rw [checkout_noop_of_pointsFetch_fail input env (Or.inl hpf)]
    rfl
  · refine absurd ?_ h
    rw [checkout_noop_of_pointsFetch_fail input env (Or.inr hpf)]
    rfl
  · refine ⟨p, rfl, ?_, ?_⟩
    · by_contra hb
      push_neg at hb
      refine h ?_
      rw [checkout_noop_of_points input env p hpf
        (Or.inr (Or.inr (Or.inl hb)))]
      rfl
    · intro hy
      refine h ?_
      rw [checkout_noop_of_points input env p hpf
        (Or.inr (Or.inr (Or.inr hy)))]
      rfl

/-- Claim C1 (amended): on the checkout/automatic path every emitted
discount amount equals `min(R, S)` — positive and never exceeding the cart
subtotal — but on the interactive path the emitted discount amount equals
the provider-returned `maxRedeemableAmt` with no cap against the submitted
subtotal, so it can exceed it. -/
theorem C1_amended_discount_cap :
    (∀ (input : CartInput) (env : CheckoutEnv) op c,
       op ∈ (cartLinesDiscountsGenerateRun input env).operations →
       c ∈ op.candidates →
       0 < c.fixedAmount.amount ∧
       c.fixedAmount.amount ≤ input.subtotalAmount.amount ∧
       ∃ r, env.redeemFetch = .ok r ∧
         c.fixedAmount.amount =
           min (numOr r.discount_value_rupees 0)
             input.subtotalAmount.amount) ∧
    (∀ (req : RedeemRequestInput) (env : RedeemEnv) code amt pts,
       (redeemPointsAction req env).response = .success code amt pts →
       ∃ r, env.redeemFetch = .ok r ∧ amt = r.maxRedeemableAmt) :=
  ⟨fun input env op c hop hc =>
    checkout_emitted_amount_is_min input env op c hop hc,
   fun req env code amt pts h => by
    obtain ⟨r, hr, _, _, hamt, _⟩ := redeemAction_success req env code amt pts h
    exact ⟨r, hr, hamt⟩⟩

/-- Counterexample to C1 as stated: on the interactive path, with submitted
bill amount 100 and a provider redeem value of 150, the route reports a
successful discount of 150 — not `min(150, 100) = 100` — exceeding the
subtotal. -/
theorem C1_counterexample :
    sampleRedeemRequest.bill_amt = some 100 ∧
    overAmtRedeemEnv.redeemFetch = .ok overAmtRedeemPayload ∧
    overAmtRedeemPayload.maxRedeemableAmt = 150 ∧
    (redeemPointsAction sampleRedeemRequest overAmtRedeemEnv).response =
      .success "BILLFREE0" 150 1500 ∧
    ¬((150 : ℚ) = min 150 100) ∧ (100 : ℚ) < 150 := by
  refine ⟨rfl, rfl, rfl, ?_, by norm_num, by norm_num⟩
  decide

/-- Witness for C1 (amended) at the concrete C5 checkout run and the
concrete over-amount interactive run. -/
theorem C1_witness :
    (0 < c5Candidate.fixedAmount.amount ∧
     c5Candidate.fixedAmount.amount ≤ sampleCartInput.subtotalAmount.amount ∧
     ∃ r, c5Env.redeemFetch = .ok r ∧
       c5Candidate.fixedAmount.amount =
         min (numOr r.discount_value_rupees 0)
           sampleCartInput.subtotalAmount.amount) ∧
    (∃ r, overAmtRedeemEnv.redeemFetch = .ok r ∧
       (150 : ℚ) = r.maxRedeemableAmt) :=
  ⟨C1_amended_discount_cap.1 sampleCartInput c5Env c5Operation c5Candidate
     (by decide) (by decide),
   C1_amended_discount_cap.2 sampleRedeemRequest overAmtRedeemEnv
     "BILLFREE0" 150 1500 (by decide)⟩

/-- Claim C2 (amended): on the checkout path no discount is emitted unless
the points lookup succeeded with a positive balance and `otpFlag ≠ "y"`;
on the interactive path OTP verification is performed exactly when an
`otp_code` is submitted, and a discount-creation request is issued whenever
the provider redeem succeeds with a truthy `maxRedeemableAmt`, without any
local balance or OTP-requirement check. -/
theorem C2_amended_emission_guard :
    (∀ (input : CartInput) (env : CheckoutEnv),
       (cartLinesDiscountsGenerateRun input env).operations ≠ [] →
       ∃ p, env.pointsFetch = .ok p ∧ 0 < numOr p.balance 0 ∧
         p.otpFlag ≠ "y") ∧
    (∀ (req : RedeemRequestInput) (env : RedeemEnv) v,
       (redeemPointsAction req env).discountCreateRequested = some v →
       (redeemPointsAction req env).otpVerified = optStrTruthy req.otp_code ∧
       ∃ r, env.redeemFetch = .ok r ∧ r.error = false ∧
         r.maxRedeemableAmt ≠ 0) :=
  ⟨fun input env h => checkout_ops_nonempty_guard input env h,
   fun req env v h => by
    obtain ⟨⟨r, hr, herr, hamt, _⟩, hov⟩ := redeemAction_requested req env v h
    exact ⟨hov, r, hr, herr, hamt⟩⟩

/-- Counterexample to C2 as stated: a discount-creation request is issued
for an account the provider itself reports as OTP-gated (`otpFlag = "y"` in
the redeem payload) although no `otp_code` was submitted and no OTP
verification call was made. -/
theorem C2_counterexample :
    sampleRedeemRequest.otp_code = none ∧
    otpGatedRedeemEnv.redeemFetch = .ok otpGatedRedeemPayload ∧
    otpGatedRedeemPayload.otpFlag = "y" ∧
    (redeemPointsAction sampleRedeemRequest
        otpGatedRedeemEnv).otpVerifyCalled = false ∧
    (redeemPointsAction sampleRedeemRequest
        otpGatedRedeemEnv).discountCreateRequested = some c2CodeInput := by
  refine ⟨rfl, rfl, rfl, ?_, ?_⟩ <;> decide

/-- Witness for C2 (amended) at the concrete C5 checkout run and the
concrete OTP-gated interactive run. -/
theorem C2_witness :
    (∃ p, c5Env.pointsFetch = .ok p ∧ 0 < numOr p.balance 0 ∧
       p.otpFlag ≠ "y") ∧
    ((redeemPointsAction sampleRedeemRequest otpGatedRedeemEnv).otpVerified =
       optStrTruthy sampleRedeemRequest.otp_code ∧
     ∃ r, otpGatedRedeemEnv.redeemFetch = .ok r ∧ r.error = false ∧
       r.maxRedeemableAmt ≠ 0) :=
  ⟨C2_amended_emission_guard.1 sampleCartInput c5Env (by decide),
   C2_amended_emission_guard.2 sampleRedeemRequest otpGatedRedeemEnv
     c2CodeInput (by decide)⟩

theorem verifyOtp_cases (p : VerifyOtpPayload) (env : VerifyOtpEnv) :
    (verifyOtpAction p env).priceRuleRequested = none ∨
    verifyOtpAction p env = verifyOtpRedeemPhase p env := by
  unfold verifyOtpAction
  repeat' split
  all_goals
    first
      | exact Or.inl rfl
      | exact Or.inr rfl

theorem verifyOtpPhase_requested (p : VerifyOtpPayload)
    (env : VerifyOtpEnv) (v : PriceRuleInput)
    (h : (verifyOtpRedeemPhase p env).priceRuleRequested = some v) :
    ∃ r, env.redeemFetch = .ok r ∧ v = mkPriceRuleInput p env r := by
  unfold verifyOtpRedeemPhase at h
  rcases hred : env.redeemFetch with _ | _ | r <;> simp only [hred] at h
  · simp [votpCaught] at h
  · simp [votpCaught] at h
  · by_cases herr : r.error = true
    · rw [if_pos herr] at h
      simp at h
    · rw [if_neg herr] at h
      by_cases hamt : numOr r.maxRedeemableAmt 0 ≤ 0
      · rw [if_pos hamt] at h
        simp at h
      · rw [if_neg hamt] at h
        refine ⟨r, rfl, ?_⟩
        rcases hcc : env.priceRuleCreate with _ | res <;>
          simp only [hcc] at h
        · simpa [votpCaught] using h.symm
        · by_cases hge : res.gqlErrors.length > 0
          · rw [if_pos hge] at h
            simpa using h.symm
          · rw [if_neg hge] at h
            by_cases hue : res.userErrors.length > 0
            · rw [if_pos hue] at h
              simpa using h.symm
            · rw [if_neg hue] at h
              rcases hrc : res.returnedCode with _ | code <;>
                simp only [hrc] at h
              · simpa using h.symm
              · simpa using h.symm

theorem verifyOtp_rule_fields (p : VerifyOtpPayload) (env : VerifyOtpEnv)
    (v : PriceRuleInput)
    (h : (verifyOtpAction p env).priceRuleRequested = some v) :
    v.usageLimit = 1 ∧ v.oncePerCustomer = true ∧
    v.prerequisiteCustomerIds = [p.customer_gid] := by
  rcases verifyOtp_cases p env with h0 | h0
  · rw [h0] at h
    cases h
  · rw [h0] at h
    obtain ⟨r, _, hv⟩ := verifyOtpPhase_requested p env v h
    subst hv
    exact ⟨rfl, rfl, rfl⟩

/-- Claim C7: every discount-creation request issued by either interactive
route — the `discountCodeAppCreate` mutation of the redeem-points route and
the `priceRuleCreate` mutation of the verify-otp route — sets usage limit
1, once-per-customer, and a customer selection containing exactly the
requesting customer's id. -/
theorem C7_single_use_customer_scoped :
    (∀ (req : RedeemRequestInput) (env : RedeemEnv) v,
       (redeemPointsAction req env).discountCreateRequested = some v →
       v.usageLimit = 1 ∧ v.appliesOncePerCustomer = true ∧
       v.customersAdded = [req.customer_id]) ∧
    (∀ (p : VerifyOtpPayload) (env : VerifyOtpEnv) v,
       (verifyOtpAction p env).priceRuleRequested = some v →
       v.usageLimit = 1 ∧ v.oncePerCustomer = true ∧
       v.prerequisiteCustomerIds = [p.customer_gid]) :=
  ⟨fun req env v h => by
    obtain ⟨⟨r, _, _, _, hv⟩, _⟩ := redeemAction_requested req env v h
    subst hv
    exact ⟨rfl, rfl, rfl⟩,
   fun p env v h => verifyOtp_rule_fields p env v h⟩

/-- Witness for C7 at a concrete successful run of each route. -/
theorem C7_witness :
    ((redeemPointsAction sampleRedeemRequest
        overAmtRedeemEnv).discountCreateRequested = some c7CodeInput ∧
     c7CodeInput.usageLimit = 1 ∧
     c7CodeInput.appliesOncePerCustomer = true ∧
     c7CodeInput.customersAdded = [sampleRedeemRequest.customer_id]) ∧
    ((verifyOtpAction sampleVerifyPayload
        sampleVerifyEnv).priceRuleRequested = some c7RuleInput ∧
     c7RuleInput.usageLimit = 1 ∧ c7RuleInput.oncePerCustomer = true ∧
     c7RuleInput.prerequisiteCustomerIds =
       [sampleVerifyPayload.customer_gid]) :=
  ⟨⟨by decide, C7_single_use_customer_scoped.1 sampleRedeemRequest
      overAmtRedeemEnv c7CodeInput (by decide)⟩,
   ⟨by decide, C7_single_use_customer_scoped.2 sampleVerifyPayload
      sampleVerifyEnv c7RuleInput (by decide)⟩⟩

/-- Claim C8: on the interactive path, when a submitted OTP is rejected by
the provider's verification call, the route responds 400 "Invalid OTP.",
the point-debiting redeem call is never made, and no discount-creation
request is issued. -/
theorem C8_wrong_otp_rejected (req : RedeemRequestInput) (env : RedeemEnv)
    (s hdr sh : String) (d : BillfreeVerifyOtpResponse)
    (sess : ShopSessionRecord) (ph : Option String)
    (hm : req.method = "POST") (hah : req.authHeader = some hdr)
    (hbs : strStartsWith hdr "Bearer " = true)
    (htd : env.tokenDecode = .ok sh)
    (hcid : req.customer_id ≠ "") (hba : req.bill_amt ≠ none)
    (hdb : env.dbLookup = .ok (some sess))
    (hcfg : sess.isBillFreeConfigured = true)
    (htok : optStrTruthy sess.billFreeAuthToken = true)
    (hacc : optStrTruthy sess.accessToken = true)
    (hph : env.phoneLookup = .ok ph) (hpht : optStrTruthy ph = true)
    (hotp : req.otp_code = some s) (hs : s ≠ "")
    (hof : env.otpFetch = .ok d) (hde : d.error = true) :
    (redeemPointsAction req env).response = .errorResp 400 "Invalid OTP." ∧
    (redeemPointsAction req env).redeemCalled = false ∧
    (redeemPointsAction req env).discountCreateRequested = none := by
  have hotpt : optStrTruthy req.otp_code = true := by
    rw [hotp]
    simpa [optStrTruthy] using hs
  unfold redeemPointsAction
  simp [hm, hah, hbs, htd, hcid, hba, hdb, hcfg, htok, hacc, hph, hpht,
    hotpt, hof, hde]

/-- Witness for C8 at a concrete wrong-OTP run. -/
theorem C8_witness :
    wrongOtpRedeemRequest.otp_code = some "0000" ∧
    wrongOtpRedeemEnv.otpFetch =
      .ok { error := true, response := "wrong otp" } ∧
    (redeemPointsAction wrongOtpRedeemRequest wrongOtpRedeemEnv).response =
      .errorResp 400 "Invalid OTP." ∧
    (redeemPointsAction wrongOtpRedeemRequest
        wrongOtpRedeemEnv).redeemCalled = false ∧
    (redeemPointsAction wrongOtpRedeemRequest
        wrongOtpRedeemEnv).discountCreateRequested = none :=
  ⟨rfl, rfl,
   C8_wrong_otp_rejected wrongOtpRedeemRequest wrongOtpRedeemEnv "0000"
     "Bearer session-token" "test-shop.myshopify.com"
     { error := true, response := "wrong otp" } sampleShopSession
     (some "9876543210") rfl rfl (by decide) rfl (by decide) (by decide)
     rfl rfl (by decide) (by decide) rfl (by decide) rfl (by decide)
     rfl rfl⟩

/-- Claim C9: when the commerce-platform customer lookup finds no phone
number on file, the points endpoint responds 200 with balance 0 and the
"add a phone number" scheme message — no exception, and no BillFree call —
and the interactive redemption attempt is rejected with "Customer phone
number not found.", making no redeem call and creating no discount. -/
theorem C9_no_phone_graceful :
    (∀ (req : PointsRequestInput) (env : PointsEnv)
       (s : ShopSessionRecord) (qres : PhoneQueryResult) (po : Option String),
       optStrTruthy req.customer_gid = true →
       lastGidSegment (req.customer_gid.getD "") ≠ "" →
       env.dbLookup = .ok (some s) →
       s.isBillFreeConfigured = true →
       optStrTruthy s.billFreeAuthToken = true →
       optStrTruthy s.accessToken = true →
       optStrTruthy req.shop_domain = true →
       env.phoneQuery = .ok qres →
       qres.gqlErrors = [] →
       qres.queryData = some po →
       optStrTruthy po = false →
       loyaltyPointsLoader req env = addPhonePointsTrace) ∧
    (∀ (req : RedeemRequestInput) (env : RedeemEnv) (hdr sh : String)
       (sess : ShopSessionRecord) (po : Option String),
       req.method = "POST" → req.authHeader = some hdr →
       strStartsWith hdr "Bearer " = true →
       env.tokenDecode = .ok sh →
       req.customer_id ≠ "" → req.bill_amt ≠ none →
       env.dbLookup = .ok (some sess) →
       sess.isBillFreeConfigured = true →
       optStrTruthy sess.billFreeAuthToken = true →
       optStrTruthy sess.accessToken = true →
       env.phoneLookup = .ok po → optStrTruthy po = false →
       (redeemPointsAction req env).response =
         .errorResp 400 "Customer phone number not found." ∧
       (redeemPointsAction req env).redeemCalled = false ∧
       (redeemPointsAction req env).discountCreateRequested = none) := by
  constructor
  · intro req env s qres po hgid hsid hdb hcfg htok hacc hsd hpq hge hqd hpo
    unfold loyaltyPointsLoader
    simp [hgid, hsid, hdb, hcfg, htok, hacc, hsd, hpq, hge, hqd, hpo,
      addPhonePointsTrace, pointsErrorOnly, pointsMessageOnly]
  · intro req env hdr sh sess po hm hah hbs htd hcid hba hdb hcfg htok hacc
      hph hpo
    unfold redeemPointsAction
    simp [hm, hah, hbs, htd, hcid, hba, hdb, hcfg, htok, hacc, hph, hpo,
      redeemEarly]

/-- Witness for C9 at a concrete phone-less customer on both endpoints. -/
theorem C9_witness :
    (loyaltyPointsLoader samplePointsRequest noPhonePointsEnv =
       addPhonePointsTrace ∧
     addPhonePointsTrace.status = 200 ∧
     addPhonePointsTrace.body.balance = some 0 ∧
     addPhonePointsTrace.billfreeCalled = false) ∧
    ((redeemPointsAction sampleRedeemRequest noPhoneRedeemEnv).response =
       .errorResp 400 "Customer phone number not found." ∧
     (redeemPointsAction sampleRedeemRequest
         noPhoneRedeemEnv).redeemCalled = false ∧
     (redeemPointsAction sampleRedeemRequest
         noPhoneRedeemEnv).discountCreateRequested = none) :=
  ⟨⟨C9_no_phone_graceful.1 samplePointsRequest noPhonePointsEnv
      sampleShopSession { gqlErrors := [], queryData := some none } none
      (by decide) (by decide) rfl rfl (by decide) (by decide) (by decide)
      rfl rfl rfl (by decide),
    rfl, rfl, rfl⟩,
   C9_no_phone_graceful.2 sampleRedeemRequest noPhoneRedeemEnv
     "Bearer session-token" "test-shop.myshopify.com" sampleShopSession
     none rfl rfl (by decide) rfl (by decide) (by decide) rfl rfl
     (by decide) (by decide) rfl (by decide)⟩

/-- Claim C10: for send-otp requests that reach the dispatch stage, the
JSON body's boolean `error` field is the negation of whether an error
occurred — `some false` when the provider reported failure or the fetch
threw, `some true` when dispatch succeeded — so success is reflected only
by the HTTP 200 status. -/
theorem C10_send_otp_error_inverted (req : SendOtpRequestInput)
    (env : SendOtpEnv) (h : sendOtpReachesDispatch req env) :
    ((sendOtpAction req env).body.errorBool = some true ↔
      sendOtpDispatchSucceeded env) ∧
    ((sendOtpAction req env).body.errorBool = some false ↔
      ¬ sendOtpDispatchSucceeded env) ∧
    ((sendOtpAction req env).status = 200 ↔
      sendOtpDispatchSucceeded env) := by
  obtain ⟨hm, ⟨hdr, hah, hbs⟩, ⟨sh, htd⟩, hph, ⟨s, hdb, hcfg, htok⟩⟩ := h
  unfold sendOtpAction
  rcases hcf : env.cotpFetch with _ | _ | d
  · simp [sendOtpDispatchSucceeded, hm, hah, hbs, htd, hph, hdb, hcfg,
      htok, hcf]
  · simp [sendOtpDispatchSucceeded, hm, hah, hbs, htd, hph, hdb, hcfg,
      htok, hcf]
  · by_cases hde : d.error = true
    · simp [sendOtpDispatchSucceeded, hm, hah, hbs, htd, hph, hdb, hcfg,
        htok, hcf, hde]
    · simp [sendOtpDispatchSucceeded, hm, hah, hbs, htd, hph, hdb, hcfg,
        htok, hcf, hde]

/-- Witness for C10 at a concrete successful dispatch. -/
theorem C10_witness :
    sendOtpDispatchSucceeded sendOtpOkEnv ∧
    (sendOtpAction sampleSendOtpRequest sendOtpOkEnv).status = 200 ∧
    (sendOtpAction sampleSendOtpRequest sendOtpOkEnv).body.errorBool =
      some true := by
  have hsucc : sendOtpDispatchSucceeded sendOtpOkEnv :=
    ⟨okSendOtpPayload, rfl, rfl⟩
  have h := C10_send_otp_error_inverted sampleSendOtpRequest sendOtpOkEnv
    ⟨rfl, ⟨"Bearer session-token", rfl, by decide⟩,
     ⟨"test-shop.myshopify.com", rfl⟩, by decide,
     ⟨sampleShopSession, rfl, rfl, by decide⟩⟩
  exact ⟨hsucc, h.2.2.mpr hsucc, h.1.mpr hsucc⟩
